import Mathlib

/- Verification of src/process.rs of spotifyd: the player-event environment
encoder (spawn_program_on_event, audio_item_to_env), the one-shot blocking
runner (run_program) and the child-process wrapper (Child::wait).

Modelling conventions. Machine integers carried by events (u128, u64, u32,
u16) only flow into decimal rendering here, so they are modelled as Nat and
rendered with toString. Byte vectors (the child's captured stdout and stderr)
are lists of Nat byte values. A Rust panic (the .unwrap() calls on to_base62)
is modelled by an Option-valued result: none means the computation aborted.
External OS effects (waiting on the child, writing to the host's stdout) enter
as explicit parameters holding their outcome, and the writes the code performs
on the host's stdout are recorded in an explicit action trace. -/

namespace Spotifyd

/-- Boundary model of librespot's SpotifyId. The only operation process.rs
uses is to_base62, which may be undefined for an identifier, so an identifier
is modelled by the result of that encoding. -/
structure SpotifyId where
  base62 : Option String
deriving DecidableEq

/-- Model of SpotifyId.to_base62 from librespot: the base62 text of the
identifier when that encoding is defined for it. -/
def SpotifyId.to_base62 (id : SpotifyId) : Option String :=
  id.base62

/-- Boundary model of a cover image of an audio item: its width and URL, the
two fields process.rs reads. -/
structure Cover where
  width : Nat
  url : String
deriving DecidableEq

/-- Boundary model of librespot's AudioItem, restricted to the fields read by
process.rs. -/
structure AudioItem where
  track_id : SpotifyId
  name : String
  duration_ms : Nat
  covers : List Cover
deriving DecidableEq

/-- Boundary model of librespot's PlayerEvent: the variants and the fields of
each that process.rs matches on, in the field order of the source patterns. -/
inductive PlayerEvent where
  | PlayRequestIdChanged (play_request_id : Nat)
  | Stopped (track_id : SpotifyId) (play_request_id : Nat)
  | Loading (track_id : SpotifyId) (play_request_id : Nat) (position_ms : Nat)
  | Preloading (track_id : SpotifyId)
  | Playing (track_id : SpotifyId) (play_request_id : Nat) (position_ms : Nat)
  | Paused (track_id : SpotifyId) (play_request_id : Nat) (position_ms : Nat)
  | TimeToPreloadNextTrack (track_id : SpotifyId) (play_request_id : Nat)
  | EndOfTrack (track_id : SpotifyId) (play_request_id : Nat)
  | Unavailable (play_request_id : Nat) (track_id : SpotifyId)
  | VolumeChanged (volume : Nat)
  | PositionCorrection (play_request_id : Nat) (track_id : SpotifyId) (position_ms : Nat)
  | Seeked (play_request_id : Nat) (track_id : SpotifyId) (position_ms : Nat)
  | TrackChanged (audio_item : AudioItem)
  | SessionConnected (connection_id : String) (user_name : String)
  | SessionDisconnected (connection_id : String) (user_name : String)
  | SessionClientChanged (client_id : String) (client_name : String)
      (client_brand_name : String) (client_model_name : String)
  | ShuffleChanged (shuffle : Bool)
  | RepeatChanged (rpt : Bool)
  | AutoPlayChanged (auto_play : Bool)
  | FilterExplicitContentChanged (filter : Bool)
deriving DecidableEq

/-- Environment map handed to the child process. Models the HashMap of str
keys to String values used by process.rs as an association list in which
insertion replaces the value stored at an existing key. -/
abbrev EnvMap := List (String × String)

/-- Model of HashMap::insert: replace the value at an existing key, otherwise
add the binding. -/
def EnvMap.insert : EnvMap → String → String → EnvMap
  | [], k, v => [(k, v)]
  | (k0, v0) :: rest, k, v =>
    if k0 = k then (k, v) :: rest else (k0, v0) :: EnvMap.insert rest k v

/-- Model of HashMap::get: the value stored at a key, if any. -/
def EnvMap.get? : EnvMap → String → Option String
  | [], _ => none
  | (k0, v0) :: rest, k => if k0 = k then some v0 else EnvMap.get? rest k

/-- Keys of an environment map, in storage order. -/
def EnvMap.keys (m : EnvMap) : List String :=
  m.map Prod.fst

/-- Environment map obtained by performing a sequence of inserts on an
initially empty map, in order. -/
def buildEnv (l : List (String × String)) : EnvMap :=
  l.foldl (fun m kv => EnvMap.insert m kv.1 kv.2) []

/-- Combining step of Rust's Iterator::max_by_key with key c.width: per the
documented semantics of max_by_key, when two elements compare equal the later
one is kept. -/
def coverStep (m c : Cover) : Cover :=
  if m.width ≤ c.width then c else m

/-- Model of covers.into_iter().max_by_key(c.width) from audio_item_to_env:
none on an empty list, otherwise the fold of coverStep from the first
element, which returns the last element of maximal width. -/
def max_by_key_width : List Cover → Option Cover
  | [] => none
  | c :: cs => some (cs.foldl coverStep c)

/-- Sequence of env.insert calls performed by audio_item_to_env in
process.rs, in program order. TRACK_ID uses to_base62 with
unwrap_or_default, so an undefined encoding becomes the empty string, and
TRACK_COVER is inserted only when max_by_key finds a cover. -/
def audio_item_to_env_inserts (audio_item : AudioItem) : List (String × String) :=
  [("TRACK_ID", (audio_item.track_id.to_base62).getD ""),
   ("TRACK_NAME", audio_item.name),
   ("TRACK_DURATION", toString audio_item.duration_ms)] ++
  match max_by_key_width audio_item.covers with
  | some cover => [("TRACK_COVER", cover.url)]
  | none => []

/-- Model of audio_item_to_env from process.rs as a transformer of the
mutable env map: its inserts applied in program order. -/
def audio_item_to_env (audio_item : AudioItem) (env : EnvMap) : EnvMap :=
  (audio_item_to_env_inserts audio_item).foldl (fun m kv => EnvMap.insert m kv.1 kv.2) env

/-- Sequence of env.insert calls performed by the match in
spawn_program_on_event, per variant and in program order. The value is none
when one of the source's .unwrap() calls on to_base62 panics, which aborts
the whole function before any later insert or the spawn. -/
def spawn_program_on_event_inserts : PlayerEvent → Option (List (String × String))
  | .PlayRequestIdChanged play_request_id =>
    some [("PLAYER_EVENT", "playrequestid_changed"),
          ("PLAY_REQUEST_ID", toString play_request_id)]
  | .Stopped track_id play_request_id =>
    (track_id.to_base62).map fun tid =>
      [("PLAYER_EVENT", "stop"), ("TRACK_ID", tid),
       ("PLAY_REQUEST_ID", toString play_request_id)]
  | .Loading track_id play_request_id position_ms =>
    (track_id.to_base62).map fun tid =>
      [("PLAYER_EVENT", "load"), ("TRACK_ID", tid),
       ("PLAY_REQUEST_ID", toString play_request_id),
       ("POSITION_MS", toString position_ms)]
  | .Preloading track_id =>
    (track_id.to_base62).map fun tid =>
      [("PLAYER_EVENT", "preloading"), ("TRACK_ID", tid)]
  | .Playing track_id play_request_id position_ms =>
    (track_id.to_base62).map fun tid =>
      [("PLAYER_EVENT", "start"), ("TRACK_ID", tid),
       ("PLAY_REQUEST_ID", toString play_request_id),
       ("POSITION_MS", toString position_ms)]
  | .Paused track_id play_request_id position_ms =>
    (track_id.to_base62).map fun tid =>
      [("PLAYER_EVENT", "pause"), ("TRACK_ID", tid),
       ("PLAY_REQUEST_ID", toString play_request_id),
       ("POSITION_MS", toString position_ms)]
  | .TimeToPreloadNextTrack track_id play_request_id =>
    (track_id.to_base62).map fun tid =>
      [("PLAYER_EVENT", "preload"), ("TRACK_ID", tid),
       ("PLAY_REQUEST_ID", toString play_request_id)]
  | .EndOfTrack track_id play_request_id =>
    (track_id.to_base62).map fun tid =>
      [("PLAYER_EVENT", "endoftrack"), ("TRACK_ID", tid),
       ("PLAY_REQUEST_ID", toString play_request_id)]
  | .Unavailable play_request_id track_id =>
    (track_id.to_base62).map fun tid =>
      [("PLAYER_EVENT", "unavailable"), ("TRACK_ID", tid),
       ("PLAY_REQUEST_ID", toString play_request_id)]
  | .VolumeChanged volume =>
    some [("PLAYER_EVENT", "volumeset"), ("VOLUME", toString volume)]
  | .PositionCorrection play_request_id track_id position_ms =>
    (track_id.to_base62).map fun tid =>
      [("PLAYER_EVENT", "positioncorrection"), ("TRACK_ID", tid),
       ("PLAY_REQUEST_ID", toString play_request_id),
       ("POSITION_MS", toString position_ms)]
  | .Seeked play_request_id track_id position_ms =>
    (track_id.to_base62).map fun tid =>
      [("PLAYER_EVENT", "seeked"), ("TRACK_ID", tid),
       ("PLAY_REQUEST_ID", toString play_request_id),
       ("POSITION_MS", toString position_ms)]
  | .TrackChanged audio_item =>
    (audio_item.track_id.to_base62).map fun tid =>
      [("PLAYER_EVENT", "change"), ("TRACK_ID", tid)] ++
      audio_item_to_env_inserts audio_item
  | .SessionConnected connection_id user_name =>
    some [("PLAYER_EVENT", "sessionconnected"),
          ("CONNECTION_ID", connection_id), ("USERNAME", user_name)]
  | .SessionDisconnected connection_id user_name =>
    some [("PLAYER_EVENT", "sessiondisconnected"),
          ("CONNECTION_ID", connection_id), ("USERNAME", user_name)]
  | .SessionClientChanged client_id client_name client_brand_name client_model_name =>
    some [("PLAYER_EVENT", "clientchanged"),
          ("CLIENT_ID", client_id), ("CLIENT_NAME", client_name),
          ("CLIENT_BRAND", client_brand_name), ("CLIENT_MODEL", client_model_name)]
  | .ShuffleChanged shuffle =>
    some [("PLAYER_EVENT", "shuffle_changed"), ("SHUFFLE", toString shuffle)]
  | .RepeatChanged rpt =>
    some [("PLAYER_EVENT", "repeat_changed"),
          ("REPEAT", if rpt then "all" else "none")]
  | .AutoPlayChanged auto_play =>
    some [("PLAYER_EVENT", "autoplay_changed"), ("AUTOPLAY", toString auto_play)]
  | .FilterExplicitContentChanged filter =>
    some [("PLAYER_EVENT", "filterexplicit_changed"), ("FILTEREXPLICIT", toString filter)]

/-- Environment map built by spawn_program_on_event for an event: all of the
variant's inserts applied to an initially empty map. none models a panic of
one of the .unwrap() calls on to_base62. -/
def spawn_program_on_event_env (event : PlayerEvent) : Option EnvMap :=
  (spawn_program_on_event_inserts event).map buildEnv

/-- Value stored under a key of the environment map that
spawn_program_on_event builds for an event, when the map is built at all. -/
def eventEnvGet (event : PlayerEvent) (key : String) : Option String :=
  (spawn_program_on_event_env event).bind (fun m => EnvMap.get? m key)

/-- Observable step of spawn_program_on_event: an env.insert call, or the
handoff of the finished map to spawn_program. -/
inductive SpawnStep where
  | insertEnv (key value : String)
  | spawnChild (shell cmd : String) (env : EnvMap)
deriving DecidableEq

/-- Trace of spawn_program_on_event: the insert steps of the matched variant
in program order, followed by the single spawn_program call, which receives
the map obtained from all of those inserts. none models a panic of one of
the .unwrap() calls, which aborts before the spawn. -/
def spawn_program_on_event_trace (shell cmd : String) (event : PlayerEvent) :
    Option (List SpawnStep) :=
  (spawn_program_on_event_inserts event).map fun l =>
    l.map (fun kv => SpawnStep.insertEnv kv.1 kv.2) ++
      [SpawnStep.spawnChild shell cmd (buildEnv l)]

/-- Boundary model of an OS-level I/O error (std::io::Error), identified by
its description only. -/
structure IOErr where
  msg : String
deriving DecidableEq

/-- Modelled from the spec: the error type crate::error::Error of this
repository is not under src/; §3 and §7 of the spec describe it as a value
carrying shell and command and either captured stderr text, an underlying OS
cause, or neither. The three constructors process.rs uses are modelled as the
three corresponding shapes. -/
inductive Error where
  | subprocess (shell cmd : String)
  | subprocess_with_str (shell cmd stderr_text : String)
  | subprocess_with_err (shell cmd : String) (cause : IOErr)
deriving DecidableEq

/-- Captured outcome of a finished child process: exit-status success flag and
the bytes of its stdout and stderr. -/
structure Output where
  success : Bool
  stdout : List Nat
  stderr : List Nat
deriving DecidableEq

/-- Whether a byte is a UTF-8 continuation byte. -/
def isCont (b : Nat) : Bool :=
  0x80 ≤ b && b < 0xC0

/-- Decoder loop for UTF-8 byte sequences, with fuel bounded by the number of
bytes; implements the validity rules of Rust's std UTF-8 decoding (rejecting
overlong forms, surrogates and code points above 0x10FFFF). -/
def utf8DecodeLoop : Nat → List Nat → Option (List Char)
  | _, [] => some []
  | 0, _ :: _ => none
  | fuel + 1, b :: rest =>
    if b < 0x80 then
      (utf8DecodeLoop fuel rest).map (fun cs => Char.ofNat b :: cs)
    else if b < 0xC2 then none
    else if b < 0xE0 then
      match rest with
      | b1 :: rest1 =>
        if isCont b1 then
          (utf8DecodeLoop fuel rest1).map
            (fun cs => Char.ofNat ((b - 0xC0) * 0x40 + (b1 - 0x80)) :: cs)
        else none
      | [] => none
    else if b < 0xF0 then
      match rest with
      | b1 :: b2 :: rest2 =>
        if (if b = 0xE0 then 0xA0 ≤ b1 && b1 < 0xC0
            else if b = 0xED then 0x80 ≤ b1 && b1 < 0xA0
            else isCont b1) && isCont b2 then
          (utf8DecodeLoop fuel rest2).map
            (fun cs => Char.ofNat ((b - 0xE0) * 0x1000 + (b1 - 0x80) * 0x40 + (b2 - 0x80)) :: cs)
        else none
      | _ => none
    else if b < 0xF5 then
      match rest with
      | b1 :: b2 :: b3 :: rest3 =>
        if (if b = 0xF0 then 0x90 ≤ b1 && b1 < 0xC0
            else if b = 0xF4 then 0x80 ≤ b1 && b1 < 0x90
            else isCont b1) && isCont b2 && isCont b3 then
          (utf8DecodeLoop fuel rest3).map
            (fun cs => Char.ofNat ((b - 0xF0) * 0x40000 + (b1 - 0x80) * 0x1000 +
              (b2 - 0x80) * 0x40 + (b3 - 0x80)) :: cs)
        else none
      | _ => none
    else none

/-- Model of std UTF-8 decoding (str::from_utf8 and String::from_utf8): the
decoded text when the bytes are valid UTF-8, none otherwise. -/
def from_utf8 (bytes : List Nat) : Option String :=
  (utf8DecodeLoop bytes.length bytes).map String.mk

/-- Model of run_program from process.rs. The outcome of the blocking
.output() call on the spawned command enters as a parameter: an OS error, or
the captured Output of the finished child. -/
def run_program (shell cmd : String) (outputRes : Except IOErr Output) :
    Except Error String :=
  match outputRes with
  | .error e => .error (Error.subprocess_with_err shell cmd e)
  | .ok output =>
    if !output.success then
      match from_utf8 output.stderr with
      | none => .error (Error.subprocess shell cmd)
      | some s => .error (Error.subprocess_with_str shell cmd s)
    else
      match from_utf8 output.stdout with
      | none => .error (Error.subprocess shell cmd)
      | some s => .ok s

/-- Model of the Child wrapper of process.rs: the command string and the shell
that invoked it. The live OS process resource is not representable; its
observable outcome enters Child.wait as a parameter. -/
structure Child where
  cmd : String
  shell : String
deriving DecidableEq

/-- Action this subsystem performs on the host's stdout stream. -/
inductive HostAction where
  | writeStdout (bytes : List Nat)
  | flushStdout
deriving DecidableEq

/-- Model of Child::wait from process.rs. The outcomes of the three external
effects enter as parameters: waitRes for wait_with_output, writeRes for
write_all on the host's stdout, flushRes for the flush. The returned pair is
the function's result together with the trace of actions performed on the
host's stdout stream, in order. -/
def Child.wait (c : Child) (waitRes : Except IOErr Output)
    (writeRes flushRes : Except IOErr Unit) :
    Except Error Unit × List HostAction :=
  match waitRes with
  | .error e => (.error (Error.subprocess_with_err c.shell c.cmd e), [])
  | .ok output =>
    if output.success then
      match writeRes with
      | .error e =>
        (.error (Error.subprocess_with_err c.shell c.cmd e),
         [HostAction.writeStdout output.stdout])
      | .ok _ =>
        match flushRes with
        | .error e =>
          (.error (Error.subprocess_with_err c.shell c.cmd e),
           [HostAction.writeStdout output.stdout, HostAction.flushStdout])
        | .ok _ =>
          (.ok (), [HostAction.writeStdout output.stdout, HostAction.flushStdout])
    else
      match from_utf8 output.stderr with
      | .some stderr_text => (.error (Error.subprocess_with_str c.shell c.cmd stderr_text), [])
      | .none => (.error (Error.subprocess c.shell c.cmd), [])

/-- Specification side, following the variant-to-token column of the spec's
§4.1 table. -/
def spec_token : PlayerEvent → String
  | .PlayRequestIdChanged _ => "playrequestid_changed"
  | .Stopped _ _ => "stop"
  | .Loading _ _ _ => "load"
  | .Preloading _ => "preloading"
  | .Playing _ _ _ => "start"
  | .Paused _ _ _ => "pause"
  | .TimeToPreloadNextTrack _ _ => "preload"
  | .EndOfTrack _ _ => "endoftrack"
  | .Unavailable _ _ => "unavailable"
  | .VolumeChanged _ => "volumeset"
  | .PositionCorrection _ _ _ => "positioncorrection"
  | .Seeked _ _ _ => "seeked"
  | .TrackChanged _ => "change"
  | .SessionConnected _ _ => "sessionconnected"
  | .SessionDisconnected _ _ => "sessiondisconnected"
  | .SessionClientChanged _ _ _ _ => "clientchanged"
  | .ShuffleChanged _ => "shuffle_changed"
  | .RepeatChanged _ => "repeat_changed"
  | .AutoPlayChanged _ => "autoplay_changed"
  | .FilterExplicitContentChanged _ => "filterexplicit_changed"

/-- Specification side, following the fields column of the spec's §4.1 table:
the complete key set of each variant's environment map, PLAYER_EVENT plus the
listed fields, with TRACK_COVER present only when the item has a cover. -/
def spec_keys : PlayerEvent → List String
  | .PlayRequestIdChanged _ => ["PLAYER_EVENT", "PLAY_REQUEST_ID"]
  | .Stopped _ _ => ["PLAYER_EVENT", "TRACK_ID", "PLAY_REQUEST_ID"]
  | .Loading _ _ _ => ["PLAYER_EVENT", "TRACK_ID", "PLAY_REQUEST_ID", "POSITION_MS"]
  | .Preloading _ => ["PLAYER_EVENT", "TRACK_ID"]
  | .Playing _ _ _ => ["PLAYER_EVENT", "TRACK_ID", "PLAY_REQUEST_ID", "POSITION_MS"]
  | .Paused _ _ _ => ["PLAYER_EVENT", "TRACK_ID", "PLAY_REQUEST_ID", "POSITION_MS"]
  | .TimeToPreloadNextTrack _ _ => ["PLAYER_EVENT", "TRACK_ID", "PLAY_REQUEST_ID"]
  | .EndOfTrack _ _ => ["PLAYER_EVENT", "TRACK_ID", "PLAY_REQUEST_ID"]
  | .Unavailable _ _ => ["PLAYER_EVENT", "TRACK_ID", "PLAY_REQUEST_ID"]
  | .VolumeChanged _ => ["PLAYER_EVENT", "VOLUME"]
  | .PositionCorrection _ _ _ =>
    ["PLAYER_EVENT", "TRACK_ID", "PLAY_REQUEST_ID", "POSITION_MS"]
  | .Seeked _ _ _ => ["PLAYER_EVENT", "TRACK_ID", "PLAY_REQUEST_ID", "POSITION_MS"]
  | .TrackChanged audio_item =>
    ["PLAYER_EVENT", "TRACK_ID", "TRACK_NAME", "TRACK_DURATION"] ++
      (if audio_item.covers = [] then [] else ["TRACK_COVER"])
  | .SessionConnected _ _ => ["PLAYER_EVENT", "CONNECTION_ID", "USERNAME"]
  | .SessionDisconnected _ _ => ["PLAYER_EVENT", "CONNECTION_ID", "USERNAME"]
  | .SessionClientChanged _ _ _ _ =>
    ["PLAYER_EVENT", "CLIENT_ID", "CLIENT_NAME", "CLIENT_BRAND", "CLIENT_MODEL"]
  | .ShuffleChanged _ => ["PLAYER_EVENT", "SHUFFLE"]
  | .RepeatChanged _ => ["PLAYER_EVENT", "REPEAT"]
  | .AutoPlayChanged _ => ["PLAYER_EVENT", "AUTOPLAY"]
  | .FilterExplicitContentChanged _ => ["PLAYER_EVENT", "FILTEREXPLICIT"]

/-- Specification side: the numeric payload fields of each variant appear in
the map rendered as decimal text. -/
def spec_numbers : PlayerEvent → EnvMap → Prop
  | .PlayRequestIdChanged play_request_id, m =>
    EnvMap.get? m "PLAY_REQUEST_ID" = some (toString play_request_id)
  | .Stopped _ play_request_id, m =>
    EnvMap.get? m "PLAY_REQUEST_ID" = some (toString play_request_id)
  | .Loading _ play_request_id position_ms, m =>
    EnvMap.get? m "PLAY_REQUEST_ID" = some (toString play_request_id) ∧
    EnvMap.get? m "POSITION_MS" = some (toString position_ms)
  | .Preloading _, _ => True
  | .Playing _ play_request_id position_ms, m =>
    EnvMap.get? m "PLAY_REQUEST_ID" = some (toString play_request_id) ∧
    EnvMap.get? m "POSITION_MS" = some (toString position_ms)
  | .Paused _ play_request_id position_ms, m =>
    EnvMap.get? m "PLAY_REQUEST_ID" = some (toString play_request_id) ∧
    EnvMap.get? m "POSITION_MS" = some (toString position_ms)
  | .TimeToPreloadNextTrack _ play_request_id, m =>
    EnvMap.get? m "PLAY_REQUEST_ID" = some (toString play_request_id)
  | .EndOfTrack _ play_request_id, m =>
    EnvMap.get? m "PLAY_REQUEST_ID" = some (toString play_request_id)
  | .Unavailable play_request_id _, m =>
    EnvMap.get? m "PLAY_REQUEST_ID" = some (toString play_request_id)
  | .VolumeChanged volume, m =>
    EnvMap.get? m "VOLUME" = some (toString volume)
  | .PositionCorrection play_request_id _ position_ms, m =>
    EnvMap.get? m "PLAY_REQUEST_ID" = some (toString play_request_id) ∧
    EnvMap.get? m "POSITION_MS" = some (toString position_ms)
  | .Seeked play_request_id _ position_ms, m =>
    EnvMap.get? m "PLAY_REQUEST_ID" = some (toString play_request_id) ∧
    EnvMap.get? m "POSITION_MS" = some (toString position_ms)
  | .TrackChanged audio_item, m =>
    EnvMap.get? m "TRACK_DURATION" = some (toString audio_item.duration_ms)
  | .SessionConnected _ _, _ => True
  | .SessionDisconnected _ _, _ => True
  | .SessionClientChanged _ _ _ _, _ => True
  | .ShuffleChanged _, _ => True
  | .RepeatChanged _, _ => True
  | .AutoPlayChanged _, _ => True
  | .FilterExplicitContentChanged _, _ => True

/-- Whether every track identifier the matched variant unwraps the base62
encoding of actually has one: exactly the condition under which the source's
.unwrap() calls do not panic. -/
def base62Defined : PlayerEvent → Bool
  | .Stopped track_id _ => track_id.to_base62.isSome
  | .Loading track_id _ _ => track_id.to_base62.isSome
  | .Preloading track_id => track_id.to_base62.isSome
  | .Playing track_id _ _ => track_id.to_base62.isSome
  | .Paused track_id _ _ => track_id.to_base62.isSome
  | .TimeToPreloadNextTrack track_id _ => track_id.to_base62.isSome
  | .EndOfTrack track_id _ => track_id.to_base62.isSome
  | .Unavailable _ track_id => track_id.to_base62.isSome
  | .PositionCorrection _ track_id _ => track_id.to_base62.isSome
  | .Seeked _ track_id _ => track_id.to_base62.isSome
  | .TrackChanged audio_item => audio_item.track_id.to_base62.isSome
  | _ => true

/-- Satisfaction of a predicate by the environment map inside an optional
result: the map exists and satisfies the predicate. -/
def OptSat (P : EnvMap → Prop) (o : Option EnvMap) : Prop :=
  ∃ m, o = some m ∧ P m

/-- Looking up the key just inserted returns the inserted value. -/
lemma get?_insert_self (m : EnvMap) (k v : String) :
    EnvMap.get? (EnvMap.insert m k v) k = some v := by
  induction m with
  | nil => simp [EnvMap.insert, EnvMap.get?]
  | cons kv rest ih =>
    obtain ⟨k0, v0⟩ := kv
    by_cases hk : k0 = k
    · simp [EnvMap.insert, hk, EnvMap.get?]
    · simp [EnvMap.insert, hk, EnvMap.get?, ih]

/-- Inserting one key leaves lookups of a different key unchanged. -/
lemma get?_insert_ne (m : EnvMap) (k k2 v : String) (h : k ≠ k2) :
    EnvMap.get? (EnvMap.insert m k v) k2 = EnvMap.get? m k2 := by
  induction m with
  | nil => simp [EnvMap.insert, EnvMap.get?, h]
  | cons kv rest ih =>
    obtain ⟨k0, v0⟩ := kv
    by_cases hk : k0 = k
    · subst hk
      simp [EnvMap.insert, EnvMap.get?, h]
    · simp [EnvMap.insert, hk, EnvMap.get?, ih]

/-- Folding coverStep from a seed yields an element of the list (or the seed)
whose width bounds the seed and every earlier element from above, and bounds
every later element strictly: the last element of maximal width. -/
lemma rust_max_split (cs : List Cover) :
    ∀ c : Cover,
      c.width ≤ (cs.foldl coverStep c).width ∧
      ∃ pre post, c :: cs = pre ++ (cs.foldl coverStep c) :: post ∧
        (∀ x ∈ pre, x.width ≤ (cs.foldl coverStep c).width) ∧
        (∀ x ∈ post, x.width < (cs.foldl coverStep c).width) := by
  induction cs with
  | nil =>
    intro c
    exact ⟨le_refl _, [], [], rfl, by simp, by simp⟩
  | cons x xs ih =>
    intro c
    have hfold : (x :: xs).foldl coverStep c = xs.foldl coverStep (coverStep c x) :=
      rfl
    by_cases hcx : c.width ≤ x.width
    · have hstep : coverStep c x = x := by simp [coverStep, hcx]
      obtain ⟨hseed, pre, post, heq, hpre, hpost⟩ := ih x
      rw [hfold, hstep]
      refine ⟨le_trans hcx hseed, c :: pre, post, ?_, ?_, hpost⟩
      · rw [List.cons_append, ← heq]
      · intro y hy
        rcases List.mem_cons.mp hy with hy | hy
        · subst hy; exact le_trans hcx hseed
        · exact hpre y hy
    · have hxc : x.width < c.width := Nat.lt_of_not_le hcx
      have hstep : coverStep c x = c := by simp [coverStep, hcx]
      obtain ⟨hseed, pre, post, heq, hpre, hpost⟩ := ih c
      rw [hfold, hstep]
      cases pre with
      | nil =>
        simp only [List.nil_append, List.cons.injEq] at heq
        obtain ⟨hr, hpostEq⟩ := heq
        refine ⟨hseed, [], x :: post, ?_, by simp, ?_⟩
        · simp [← hr, ← hpostEq]
        · intro y hy
          rcases List.mem_cons.mp hy with hy | hy
          · subst hy
            exact lt_of_lt_of_le hxc hseed
          · exact hpost y hy
      | cons p0 pre2 =>
        simp only [List.cons_append, List.cons.injEq] at heq
        obtain ⟨hp0, htail⟩ := heq
        refine ⟨hseed, c :: x :: pre2, post, ?_, ?_, hpost⟩
        · simp [List.cons_append, ← htail]
        · intro y hy
          rcases List.mem_cons.mp hy with hy | hy
          · subst hy; exact hseed
          · rcases List.mem_cons.mp hy with hy | hy
            · subst hy
              exact le_of_lt (lt_of_lt_of_le hxc hseed)
            · exact hpre y (List.mem_cons_of_mem _ hy)

/-- C1: for every PlayerEvent variant, the map spawn_program_on_event builds
sets PLAYER_EVENT to exactly the lowercase token of the spec's §4.1 table,
sets exactly the payload keys listed there for that variant (TRACK_COVER only
when the TrackChanged item has a cover) and no other keys, and renders the
numeric payloads as decimal text; stated under the condition that the
unwrapped base62 encodings are defined, since the map is otherwise never
produced. -/
theorem player_event_env_matches_table :
    ∀ e : PlayerEvent, base62Defined e = true →
    OptSat (fun m =>
      EnvMap.get? m "PLAYER_EVENT" = some (spec_token e) ∧
      EnvMap.keys m = spec_keys e ∧
      spec_numbers e m) (spawn_program_on_event_env e) := by
  intro e h
  cases e with
  | PlayRequestIdChanged play_request_id => exact ⟨_, rfl, rfl, rfl, rfl⟩
  | Stopped track_id play_request_id =>
    obtain ⟨b⟩ := track_id
    cases b with
    | none => simp [base62Defined, SpotifyId.to_base62] at h
    | some s => exact ⟨_, rfl, rfl, rfl, rfl⟩
  | Loading track_id play_request_id position_ms =>
    obtain ⟨b⟩ := track_id
    cases b with
    | none => simp [base62Defined, SpotifyId.to_base62] at h
    | some s => exact ⟨_, rfl, rfl, rfl, rfl, rfl⟩
  | Preloading track_id =>
    obtain ⟨b⟩ := track_id
    cases b with
    | none => simp [base62Defined, SpotifyId.to_base62] at h
    | some s => exact ⟨_, rfl, rfl, rfl, trivial⟩
  | Playing track_id play_request_id position_ms =>
    obtain ⟨b⟩ := track_id
    cases b with
    | none => simp [base62Defined, SpotifyId.to_base62] at h
    | some s => exact ⟨_, rfl, rfl, rfl, rfl, rfl⟩
  | Paused track_id play_request_id position_ms =>
    obtain ⟨b⟩ := track_id
    cases b with
    | none => simp [base62Defined, SpotifyId.to_base62] at h
    | some s => exact ⟨_, rfl, rfl, rfl, rfl, rfl⟩
  | TimeToPreloadNextTrack track_id play_request_id =>
    obtain ⟨b⟩ := track_id
    cases b with
    | none => simp [base62Defined, SpotifyId.to_base62] at h
    | some s => exact ⟨_, rfl, rfl, rfl, rfl⟩
  | EndOfTrack track_id play_request_id =>
    obtain ⟨b⟩ := track_id
    cases b with
    | none => simp [base62Defined, SpotifyId.to_base62] at h
    | some s => exact ⟨_, rfl, rfl, rfl, rfl⟩
  | Unavailable play_request_id track_id =>
    obtain ⟨b⟩ := track_id
    cases b with
    | none => simp [base62Defined, SpotifyId.to_base62] at h
    | some s => exact ⟨_, rfl, rfl, rfl, rfl⟩
  | VolumeChanged volume => exact ⟨_, rfl, rfl, rfl, rfl⟩
  | PositionCorrection play_request_id track_id position_ms =>
    obtain ⟨b⟩ := track_id
    cases b with
    | none => simp [base62Defined, SpotifyId.to_base62] at h
    | some s => exact ⟨_, rfl, rfl, rfl, rfl, rfl⟩
  | Seeked play_request_id track_id position_ms =>
    obtain ⟨b⟩ := track_id
    cases b with
    | none => simp [base62Defined, SpotifyId.to_base62] at h
    | some s => exact ⟨_, rfl, rfl, rfl, rfl, rfl⟩
  | TrackChanged audio_item =>
    obtain ⟨⟨b⟩, nm, dur, covers⟩ := audio_item
    cases b with
    | none => simp [base62Defined, SpotifyId.to_base62] at h
    | some s =>
      cases covers with
      | nil => exact ⟨_, rfl, rfl, rfl, rfl⟩
      | cons c cs => exact ⟨_, rfl, rfl, rfl, rfl⟩
  | SessionConnected connection_id user_name => exact ⟨_, rfl, rfl, rfl, trivial⟩
  | SessionDisconnected connection_id user_name => exact ⟨_, rfl, rfl, rfl, trivial⟩
  | SessionClientChanged a1 a2 a3 a4 => exact ⟨_, rfl, rfl, rfl, trivial⟩
  | ShuffleChanged shuffle => exact ⟨_, rfl, rfl, rfl, trivial⟩
  | RepeatChanged rpt => exact ⟨_, rfl, rfl, rfl, trivial⟩
  | AutoPlayChanged auto_play => exact ⟨_, rfl, rfl, rfl, trivial⟩
  | FilterExplicitContentChanged filter => exact ⟨_, rfl, rfl, rfl, trivial⟩

/-- Witness for C1 at a concrete Stopped event. -/
theorem player_event_env_matches_table_witness :
    base62Defined (PlayerEvent.Stopped ⟨some "x"⟩ 7) = true ∧
    OptSat (fun m =>
      EnvMap.get? m "PLAYER_EVENT" = some (spec_token (PlayerEvent.Stopped ⟨some "x"⟩ 7)) ∧
      EnvMap.keys m = spec_keys (PlayerEvent.Stopped ⟨some "x"⟩ 7) ∧
      spec_numbers (PlayerEvent.Stopped ⟨some "x"⟩ 7) m)
      (spawn_program_on_event_env (PlayerEvent.Stopped ⟨some "x"⟩ 7)) :=
  ⟨rfl, player_event_env_matches_table (PlayerEvent.Stopped ⟨some "x"⟩ 7) rfl⟩

/-- C4: RepeatChanged with repeat true yields REPEAT with the exact string
value all, with repeat false the value none, and in neither case the literal
strings true or false. -/
theorem repeat_changed_env_values :
    eventEnvGet (PlayerEvent.RepeatChanged true) "REPEAT" = some "all" ∧
    eventEnvGet (PlayerEvent.RepeatChanged false) "REPEAT" = some "none" ∧
    eventEnvGet (PlayerEvent.RepeatChanged true) "REPEAT" ≠ some "true" ∧
    eventEnvGet (PlayerEvent.RepeatChanged true) "REPEAT" ≠ some "false" ∧
    eventEnvGet (PlayerEvent.RepeatChanged false) "REPEAT" ≠ some "true" ∧
    eventEnvGet (PlayerEvent.RepeatChanged false) "REPEAT" ≠ some "false" := by
  decide

/-- C2 counterexample: for a Stopped event whose track identifier has no
base62 encoding, building the environment map does not complete: the
source's .unwrap() panics (modelled by none), instead of omitting or
defaulting the TRACK_ID key. -/
theorem encoder_crashes_on_undefined_base62 :
    spawn_program_on_event_env (PlayerEvent.Stopped ⟨none⟩ 0) = none := by
  decide

/-- C2 amended: building the environment map completes for every event whose
unwrapped track identifiers have a defined base62 encoding; and inside the
audio-item expansion the TRACK_ID key is defaulted to the empty string when
the encoding is undefined, rather than aborting. Elsewhere an undefined
encoding aborts the encoder (see the counterexample). -/
theorem encoder_total_on_defined_base62 :
    (∀ e : PlayerEvent, base62Defined e = true →
      (spawn_program_on_event_env e).isSome = true) ∧
    (∀ (audio_item : AudioItem) (env : EnvMap),
      audio_item.track_id.to_base62 = none →
      EnvMap.get? (audio_item_to_env audio_item env) "TRACK_ID" = some "") := by
  constructor
  · intro e h
    cases e with
    | PlayRequestIdChanged play_request_id => rfl
    | Stopped track_id play_request_id =>
      obtain ⟨b⟩ := track_id
      cases b with
      | none => simp [base62Defined, SpotifyId.to_base62] at h
      | some s => rfl
    | Loading track_id play_request_id position_ms =>
      obtain ⟨b⟩ := track_id
      cases b with
      | none => simp [base62Defined, SpotifyId.to_base62] at h
      | some s => rfl
    | Preloading track_id =>
      obtain ⟨b⟩ := track_id
      cases b with
      | none => simp [base62Defined, SpotifyId.to_base62] at h
      | some s => rfl
    | Playing track_id play_request_id position_ms =>
      obtain ⟨b⟩ := track_id
      cases b with
      | none => simp [base62Defined, SpotifyId.to_base62] at h
      | some s => rfl
    | Paused track_id play_request_id position_ms =>
      obtain ⟨b⟩ := track_id
      cases b with
      | none => simp [base62Defined, SpotifyId.to_base62] at h
      | some s => rfl
    | TimeToPreloadNextTrack track_id play_request_id =>
      obtain ⟨b⟩ := track_id
      cases b with
      | none => simp [base62Defined, SpotifyId.to_base62] at h
      | some s => rfl
    | EndOfTrack track_id play_request_id =>
      obtain ⟨b⟩ := track_id
      cases b with
      | none => simp [base62Defined, SpotifyId.to_base62] at h
      | some s => rfl
    | Unavailable play_request_id track_id =>
      obtain ⟨b⟩ := track_id
      cases b with
      | none => simp [base62Defined, SpotifyId.to_base62] at h
      | some s => rfl
    | VolumeChanged volume => rfl
    | PositionCorrection play_request_id track_id position_ms =>
      obtain ⟨b⟩ := track_id
      cases b with
      | none => simp [base62Defined, SpotifyId.to_base62] at h
      | some s => rfl
    | Seeked play_request_id track_id position_ms =>
      obtain ⟨b⟩ := track_id
      cases b with
      | none => simp [base62Defined, SpotifyId.to_base62] at h
      | some s => rfl
    | TrackChanged audio_item =>
      obtain ⟨⟨b⟩, nm, dur, covers⟩ := audio_item
      cases b with
      | none => simp [base62Defined, SpotifyId.to_base62] at h
      | some s => rfl
    | SessionConnected connection_id user_name => rfl
    | SessionDisconnected connection_id user_name => rfl
    | SessionClientChanged a1 a2 a3 a4 => rfl
    | ShuffleChanged shuffle => rfl
    | RepeatChanged rpt => rfl
    | AutoPlayChanged auto_play => rfl
    | FilterExplicitContentChanged filter => rfl
  · intro audio_item env h
    obtain ⟨⟨b⟩, nm, dur, covers⟩ := audio_item
    simp only [SpotifyId.to_base62] at h
    subst h
    cases hcov : max_by_key_width covers with
    | none =>
      simp only [audio_item_to_env, audio_item_to_env_inserts, hcov, List.append_nil,
        List.foldl_cons, List.foldl_nil]
      rw [get?_insert_ne _ _ _ _ (by decide), get?_insert_ne _ _ _ _ (by decide),
        get?_insert_self]
      rfl
    | some cover =>
      simp only [audio_item_to_env, audio_item_to_env_inserts, hcov, List.cons_append,
        List.nil_append, List.foldl_cons, List.foldl_nil]
      rw [get?_insert_ne _ _ _ _ (by decide), get?_insert_ne _ _ _ _ (by decide),
        get?_insert_ne _ _ _ _ (by decide), get?_insert_self]
      rfl

/-- Witness for the C2 amended theorem at concrete inputs. -/
theorem encoder_total_on_defined_base62_witness :
    (base62Defined (PlayerEvent.Playing ⟨some "y"⟩ 1 2) = true ∧
      (spawn_program_on_event_env (PlayerEvent.Playing ⟨some "y"⟩ 1 2)).isSome = true) ∧
    ((⟨⟨none⟩, "n", 3, []⟩ : AudioItem).track_id.to_base62 = none ∧
      EnvMap.get? (audio_item_to_env ⟨⟨none⟩, "n", 3, []⟩ []) "TRACK_ID" = some "") :=
  ⟨⟨rfl, encoder_total_on_defined_base62.1 (PlayerEvent.Playing ⟨some "y"⟩ 1 2) rfl⟩,
   ⟨rfl, encoder_total_on_defined_base62.2 ⟨⟨none⟩, "n", 3, []⟩ [] rfl⟩⟩

/-- C3 counterexample: for a TrackChanged item with two covers of the same
maximal width, widths 5 and 5 with URLs a then b, the encoder sets
TRACK_COVER to the URL of the last such cover, b, not of the first
encountered, a, as the claim's tie-break states. -/
theorem track_cover_tie_breaks_last_not_first :
    eventEnvGet
      (PlayerEvent.TrackChanged ⟨⟨some "t"⟩, "n", 1, [⟨5, "a"⟩, ⟨5, "b"⟩]⟩)
      "TRACK_COVER" = some "b" ∧
    eventEnvGet
      (PlayerEvent.TrackChanged ⟨⟨some "t"⟩, "n", 1, [⟨5, "a"⟩, ⟨5, "b"⟩]⟩)
      "TRACK_COVER" ≠ some "a" := by
  decide

/-- C3 amended: for a TrackChanged event with at least one cover, TRACK_COVER
is the URL of a cover of maximal width, and among several covers sharing that
maximal width it is the last one encountered (all covers after it are
strictly narrower); with no cover images the map contains no TRACK_COVER key.
Stated for an item whose track identifier has a base62 encoding, since the
map is otherwise never produced. -/
theorem track_cover_max_width_last_tie :
    ∀ audio_item : AudioItem, audio_item.track_id.to_base62.isSome = true →
    OptSat (fun m =>
      (audio_item.covers = [] → EnvMap.get? m "TRACK_COVER" = none) ∧
      (audio_item.covers ≠ [] → ∃ pre cover post,
        audio_item.covers = pre ++ cover :: post ∧
        EnvMap.get? m "TRACK_COVER" = some cover.url ∧
        (∀ x ∈ pre, x.width ≤ cover.width) ∧
        (∀ x ∈ post, x.width < cover.width)))
      (spawn_program_on_event_env (PlayerEvent.TrackChanged audio_item)) := by
  intro audio_item h
  obtain ⟨⟨b⟩, nm, dur, covers⟩ := audio_item
  cases b with
  | none => simp [SpotifyId.to_base62] at h
  | some s =>
    cases covers with
    | nil =>
      exact ⟨_, rfl, fun _ => rfl, fun hne => absurd rfl hne⟩
    | cons c cs =>
      refine ⟨_, rfl, fun hnil => List.noConfusion hnil, fun _ => ?_⟩
      obtain ⟨hseed, pre, post, heq, hpre, hpost⟩ := rust_max_split cs c
      exact ⟨pre, cs.foldl coverStep c, post, heq, rfl, hpre, hpost⟩

/-- Witness for the C3 amended theorem at a concrete TrackChanged event. -/
theorem track_cover_max_width_last_tie_witness :
    (⟨⟨some "t"⟩, "n", 1, [⟨4, "u"⟩]⟩ : AudioItem).track_id.to_base62.isSome = true ∧
    OptSat (fun m =>
      ((⟨⟨some "t"⟩, "n", 1, [⟨4, "u"⟩]⟩ : AudioItem).covers = [] →
        EnvMap.get? m "TRACK_COVER" = none) ∧
      ((⟨⟨some "t"⟩, "n", 1, [⟨4, "u"⟩]⟩ : AudioItem).covers ≠ [] → ∃ pre cover post,
        (⟨⟨some "t"⟩, "n", 1, [⟨4, "u"⟩]⟩ : AudioItem).covers = pre ++ cover :: post ∧
        EnvMap.get? m "TRACK_COVER" = some cover.url ∧
        (∀ x ∈ pre, x.width ≤ cover.width) ∧
        (∀ x ∈ post, x.width < cover.width)))
      (spawn_program_on_event_env
        (PlayerEvent.TrackChanged ⟨⟨some "t"⟩, "n", 1, [⟨4, "u"⟩]⟩)) :=
  ⟨rfl, track_cover_max_width_last_tie ⟨⟨some "t"⟩, "n", 1, [⟨4, "u"⟩]⟩ rfl⟩

/-- C5: when the child exits with zero status and the host-stdout writes
succeed, Child.wait writes the full captured stdout bytes verbatim to the
host's stdout stream and then flushes it, both before returning, and returns
success. -/
theorem wait_success_writes_stdout_and_flushes :
    ∀ (c : Child) (out : Output), out.success = true →
    Child.wait c (.ok out) (.ok ()) (.ok ()) =
      (.ok (), [HostAction.writeStdout out.stdout, HostAction.flushStdout]) := by
  intro c out h
  simp [Child.wait, h]

/-- Witness for C5 at a concrete child outcome. -/
theorem wait_success_writes_stdout_and_flushes_witness :
    Child.wait ⟨"c", "sh"⟩ (.ok ⟨true, [111, 107], []⟩) (.ok ()) (.ok ()) =
      (.ok (), [HostAction.writeStdout [111, 107], HostAction.flushStdout]) :=
  wait_success_writes_stdout_and_flushes ⟨"c", "sh"⟩ ⟨true, [111, 107], []⟩ rfl

/-- C6: when the child exits with non-zero status, Child.wait returns an
error: with the decoded stderr text attached when the stderr bytes are valid
text, and a generic subprocess error carrying only shell and command when
they are not. -/
theorem wait_failure_error_contents :
    ∀ (c : Child) (out : Output) (w f : Except IOErr Unit), out.success = false →
    (∀ s, from_utf8 out.stderr = some s →
      Child.wait c (.ok out) w f =
        (.error (Error.subprocess_with_str c.shell c.cmd s), [])) ∧
    (from_utf8 out.stderr = none →
      Child.wait c (.ok out) w f = (.error (Error.subprocess c.shell c.cmd), [])) := by
  intro c out w f h
  constructor
  · intro s hs
    simp [Child.wait, h, hs]
  · intro hs
    simp [Child.wait, h, hs]

/-- Witness for C6 at concrete child outcomes with valid and invalid stderr
bytes. -/
theorem wait_failure_error_contents_witness :
    Child.wait ⟨"c", "sh"⟩ (.ok ⟨false, [], [98, 97, 100]⟩) (.ok ()) (.ok ()) =
      (.error (Error.subprocess_with_str "sh" "c" "bad"), []) ∧
    Child.wait ⟨"c", "sh"⟩ (.ok ⟨false, [], [255]⟩) (.ok ()) (.ok ()) =
      (.error (Error.subprocess "sh" "c"), []) :=
  ⟨(wait_failure_error_contents ⟨"c", "sh"⟩ ⟨false, [], [98, 97, 100]⟩
      (.ok ()) (.ok ()) rfl).1 "bad" (by decide),
   (wait_failure_error_contents ⟨"c", "sh"⟩ ⟨false, [], [255]⟩
      (.ok ()) (.ok ()) rfl).2 (by decide)⟩

/-- C7: run_program on a finished child: non-zero exit yields a command error
carrying the decoded stderr text, or a generic subprocess error when stderr
is not valid text; zero exit yields the decoded stdout text, or a generic
subprocess error when stdout is not valid text. -/
theorem run_program_exit_behavior :
    ∀ (shell cmd : String) (out : Output),
    (out.success = false → ∀ s, from_utf8 out.stderr = some s →
      run_program shell cmd (.ok out) = .error (Error.subprocess_with_str shell cmd s)) ∧
    (out.success = false → from_utf8 out.stderr = none →
      run_program shell cmd (.ok out) = .error (Error.subprocess shell cmd)) ∧
    (out.success = true → ∀ s, from_utf8 out.stdout = some s →
      run_program shell cmd (.ok out) = .ok s) ∧
    (out.success = true → from_utf8 out.stdout = none →
      run_program shell cmd (.ok out) = .error (Error.subprocess shell cmd)) := by
  intro shell cmd out
  refine ⟨?_, ?_, ?_, ?_⟩
  · intro h s hs
    simp [run_program, h, hs]
  · intro h hs
    simp [run_program, h, hs]
  · intro h s hs
    simp [run_program, h, hs]
  · intro h hs
    simp [run_program, h, hs]

/-- Witness for C7 at concrete child outcomes covering all four cases. -/
theorem run_program_exit_behavior_witness :
    run_program "sh" "c" (.ok ⟨false, [], [98, 97, 100]⟩) =
      .error (Error.subprocess_with_str "sh" "c" "bad") ∧
    run_program "sh" "c" (.ok ⟨false, [], [255]⟩) = .error (Error.subprocess "sh" "c") ∧
    run_program "sh" "c" (.ok ⟨true, [111, 107], []⟩) = .ok "ok" ∧
    run_program "sh" "c" (.ok ⟨true, [255], []⟩) = .error (Error.subprocess "sh" "c") :=
  ⟨(run_program_exit_behavior "sh" "c" ⟨false, [], [98, 97, 100]⟩).1 rfl "bad" (by decide),
   (run_program_exit_behavior "sh" "c" ⟨false, [], [255]⟩).2.1 rfl (by decide),
   (run_program_exit_behavior "sh" "c" ⟨true, [111, 107], []⟩).2.2.1 rfl "ok" (by decide),
   (run_program_exit_behavior "sh" "c" ⟨true, [255], []⟩).2.2.2 rfl (by decide)⟩

/-- C8 counterexample: on the spawn-and-wait success path, a zero-exit child
whose stdout bytes are not valid text produces no error at all: Child.wait
forwards the raw bytes and returns success, contradicting the claim that an
UndecodableOutput-style error is produced there. -/
theorem wait_success_ignores_invalid_stdout :
    from_utf8 [255] = none ∧
    Child.wait ⟨"c", "sh"⟩ (.ok ⟨true, [255], []⟩) (.ok ()) (.ok ()) =
      (.ok (), [HostAction.writeStdout [255], HostAction.flushStdout]) :=
  ⟨rfl, rfl⟩

/-- C8 amended: a generic subprocess error carrying only shell and command is
produced whenever the relevant bytes are not valid text for run_program on
both paths (stdout of a zero-exit child, stderr of a non-zero-exit child) and
for Child.wait on the failure path only; on the wait success path the raw
stdout bytes are forwarded without decoding, so wait succeeds regardless of
their validity. -/
theorem undecodable_output_error_cases :
    ∀ (shell cmd : String) (out : Output) (c : Child) (w f : Except IOErr Unit),
    (out.success = true → from_utf8 out.stdout = none →
      run_program shell cmd (.ok out) = .error (Error.subprocess shell cmd)) ∧
    (out.success = false → from_utf8 out.stderr = none →
      run_program shell cmd (.ok out) = .error (Error.subprocess shell cmd)) ∧
    (out.success = false → from_utf8 out.stderr = none →
      Child.wait c (.ok out) w f = (.error (Error.subprocess c.shell c.cmd), [])) ∧
    (out.success = true →
      (Child.wait c (.ok out) (.ok ()) (.ok ())).1 = .ok ()) := by
  intro shell cmd out c w f
  refine ⟨?_, ?_, ?_, ?_⟩
  · intro h hs
    simp [run_program, h, hs]
  · intro h hs
    simp [run_program, h, hs]
  · intro h hs
    simp [Child.wait, h, hs]
  · intro h
    simp [Child.wait, h]

/-- Witness for the C8 amended theorem at concrete inputs, including a
zero-exit child with invalid stdout bytes on the wait path. -/
theorem undecodable_output_error_cases_witness :
    run_program "sh" "c" (.ok ⟨true, [255], []⟩) = .error (Error.subprocess "sh" "c") ∧
    run_program "sh" "c" (.ok ⟨false, [], [255]⟩) = .error (Error.subprocess "sh" "c") ∧
    Child.wait ⟨"c", "sh"⟩ (.ok ⟨false, [], [255]⟩) (.ok ()) (.ok ()) =
      (.error (Error.subprocess "sh" "c"), []) ∧
    (Child.wait ⟨"c", "sh"⟩ (.ok ⟨true, [255], []⟩) (.ok ()) (.ok ())).1 = .ok () :=
  ⟨(undecodable_output_error_cases "sh" "c" ⟨true, [255], []⟩ ⟨"c", "sh"⟩
      (.ok ()) (.ok ())).1 rfl (by decide),
   (undecodable_output_error_cases "sh" "c" ⟨false, [], [255]⟩ ⟨"c", "sh"⟩
      (.ok ()) (.ok ())).2.1 rfl (by decide),
   (undecodable_output_error_cases "sh" "c" ⟨false, [], [255]⟩ ⟨"c", "sh"⟩
      (.ok ()) (.ok ())).2.2.1 rfl (by decide),
   (undecodable_output_error_cases "sh" "c" ⟨true, [255], []⟩ ⟨"c", "sh"⟩
      (.ok ()) (.ok ())).2.2.2 rfl⟩

/-- C10: in the non-zero-exit branch and when waiting for the child's output
itself fails with an I/O error, Child.wait performs no action on the host's
stdout stream: its host-stdout trace is empty. -/
theorem wait_failure_no_host_stdout_write :
    ∀ (c : Child) (out : Output) (w f : Except IOErr Unit) (e : IOErr),
    (out.success = false → (Child.wait c (.ok out) w f).2 = []) ∧
    (Child.wait c (.error e) w f).2 = [] := by
  intro c out w f e
  constructor
  · intro h
    cases hs : from_utf8 out.stderr <;> simp [Child.wait, h, hs]
  · simp [Child.wait]

/-- Witness for C10 at concrete failing child outcomes. -/
theorem wait_failure_no_host_stdout_write_witness :
    (Child.wait ⟨"c", "sh"⟩ (.ok ⟨false, [], [98, 97, 100]⟩) (.ok ()) (.ok ())).2 = [] ∧
    (Child.wait ⟨"c", "sh"⟩ (.error ⟨"io"⟩) (.ok ()) (.ok ())).2 = [] :=
  ⟨(wait_failure_no_host_stdout_write ⟨"c", "sh"⟩ ⟨false, [], [98, 97, 100]⟩
      (.ok ()) (.ok ()) ⟨"io"⟩).1 rfl,
   (wait_failure_no_host_stdout_write ⟨"c", "sh"⟩ ⟨false, [], [98, 97, 100]⟩
      (.ok ()) (.ok ()) ⟨"io"⟩).2⟩

/-- C9: for every PlayerEvent the trace of spawn_program_on_event consists of
the variant's env.insert steps followed by one final spawn step whose map is
the one built from all of those inserts, and whose key set is the complete
§4.1 key set of the variant; when one of the unwrap calls panics instead, no
spawn step occurs at all, so no spawn ever sees a partially built map. -/
theorem spawn_only_after_complete_env :
    ∀ (shell cmd : String) (e : PlayerEvent),
    (base62Defined e = false → spawn_program_on_event_trace shell cmd e = none) ∧
    (base62Defined e = true → ∃ l,
      spawn_program_on_event_trace shell cmd e =
        some (l.map (fun kv => SpawnStep.insertEnv kv.1 kv.2) ++
          [SpawnStep.spawnChild shell cmd (buildEnv l)]) ∧
      EnvMap.keys (buildEnv l) = spec_keys e) := by
  intro shell cmd e
  cases e with
  | PlayRequestIdChanged play_request_id =>
    exact ⟨fun hf => Bool.noConfusion hf, fun _ => ⟨_, rfl, rfl⟩⟩
  | Stopped track_id play_request_id =>
    obtain ⟨b⟩ := track_id
    cases b with
    | none => exact ⟨fun _ => rfl, fun ht => Bool.noConfusion ht⟩
    | some s => exact ⟨fun hf => Bool.noConfusion hf, fun _ => ⟨_, rfl, rfl⟩⟩
  | Loading track_id play_request_id position_ms =>
    obtain ⟨b⟩ := track_id
    cases b with
    | none => exact ⟨fun _ => rfl, fun ht => Bool.noConfusion ht⟩
    | some s => exact ⟨fun hf => Bool.noConfusion hf, fun _ => ⟨_, rfl, rfl⟩⟩
  | Preloading track_id =>
    obtain ⟨b⟩ := track_id
    cases b with
    | none => exact ⟨fun _ => rfl, fun ht => Bool.noConfusion ht⟩
    | some s => exact ⟨fun hf => Bool.noConfusion hf, fun _ => ⟨_, rfl, rfl⟩⟩
  | Playing track_id play_request_id position_ms =>
    obtain ⟨b⟩ := track_id
    cases b with
    | none => exact ⟨fun _ => rfl, fun ht => Bool.noConfusion ht⟩
    | some s => exact ⟨fun hf => Bool.noConfusion hf, fun _ => ⟨_, rfl, rfl⟩⟩
  | Paused track_id play_request_id position_ms =>
    obtain ⟨b⟩ := track_id
    cases b with
    | none => exact ⟨fun _ => rfl, fun ht => Bool.noConfusion ht⟩
    | some s => exact ⟨fun hf => Bool.noConfusion hf, fun _ => ⟨_, rfl, rfl⟩⟩
  | TimeToPreloadNextTrack track_id play_request_id =>
    obtain ⟨b⟩ := track_id
    cases b with
    | none => exact ⟨fun _ => rfl, fun ht => Bool.noConfusion ht⟩
    | some s => exact ⟨fun hf => Bool.noConfusion hf, fun _ => ⟨_, rfl, rfl⟩⟩
  | EndOfTrack track_id play_request_id =>
    obtain ⟨b⟩ := track_id
    cases b with
    | none => exact ⟨fun _ => rfl, fun ht => Bool.noConfusion ht⟩
    | some s => exact ⟨fun hf => Bool.noConfusion hf, fun _ => ⟨_, rfl, rfl⟩⟩
  | Unavailable play_request_id track_id =>
    obtain ⟨b⟩ := track_id
    cases b with
    | none => exact ⟨fun _ => rfl, fun ht => Bool.noConfusion ht⟩
    | some s => exact ⟨fun hf => Bool.noConfusion hf, fun _ => ⟨_, rfl, rfl⟩⟩
  | VolumeChanged volume =>
    exact ⟨fun hf => Bool.noConfusion hf, fun _ => ⟨_, rfl, rfl⟩⟩
  | PositionCorrection play_request_id track_id position_ms =>
    obtain ⟨b⟩ := track_id
    cases b with
    | none => exact ⟨fun _ => rfl, fun ht => Bool.noConfusion ht⟩
    | some s => exact ⟨fun hf => Bool.noConfusion hf, fun _ => ⟨_, rfl, rfl⟩⟩
  | Seeked play_request_id track_id position_ms =>
    obtain ⟨b⟩ := track_id
    cases b with
    | none => exact ⟨fun _ => rfl, fun ht => Bool.noConfusion ht⟩
    | some s => exact ⟨fun hf => Bool.noConfusion hf, fun _ => ⟨_, rfl, rfl⟩⟩
  | TrackChanged audio_item =>
    obtain ⟨⟨b⟩, nm, dur, covers⟩ := audio_item
    cases b with
    | none => exact ⟨fun _ => rfl, fun ht => Bool.noConfusion ht⟩
    | some s =>
      cases covers with
      | nil => exact ⟨fun hf => Bool.noConfusion hf, fun _ => ⟨_, rfl, rfl⟩⟩
      | cons c cs => exact ⟨fun hf => Bool.noConfusion hf, fun _ => ⟨_, rfl, rfl⟩⟩
  | SessionConnected connection_id user_name =>
    exact ⟨fun hf => Bool.noConfusion hf, fun _ => ⟨_, rfl, rfl⟩⟩
  | SessionDisconnected connection_id user_name =>
    exact ⟨fun hf => Bool.noConfusion hf, fun _ => ⟨_, rfl, rfl⟩⟩
  | SessionClientChanged a1 a2 a3 a4 =>
    exact ⟨fun hf => Bool.noConfusion hf, fun _ => ⟨_, rfl, rfl⟩⟩
  | ShuffleChanged shuffle =>
    exact ⟨fun hf => Bool.noConfusion hf, fun _ => ⟨_, rfl, rfl⟩⟩
  | RepeatChanged rpt =>
    exact ⟨fun hf => Bool.noConfusion hf, fun _ => ⟨_, rfl, rfl⟩⟩
  | AutoPlayChanged auto_play =>
    exact ⟨fun hf => Bool.noConfusion hf, fun _ => ⟨_, rfl, rfl⟩⟩
  | FilterExplicitContentChanged filter =>
    exact ⟨fun hf => Bool.noConfusion hf, fun _ => ⟨_, rfl, rfl⟩⟩

/-- Witness for C9 at a concrete VolumeChanged event. -/
theorem spawn_only_after_complete_env_witness :
    base62Defined (PlayerEvent.VolumeChanged 3) = true ∧
    ∃ l, spawn_program_on_event_trace "sh" "c" (PlayerEvent.VolumeChanged 3) =
        some (l.map (fun kv => SpawnStep.insertEnv kv.1 kv.2) ++
          [SpawnStep.spawnChild "sh" "c" (buildEnv l)]) ∧
      EnvMap.keys (buildEnv l) = spec_keys (PlayerEvent.VolumeChanged 3) :=
  ⟨rfl, (spawn_only_after_complete_env "sh" "c" (PlayerEvent.VolumeChanged 3)).2 rfl⟩

end Spotifyd
